import Mathlib

/-!
Verification of the sequencer add-strip operators
(source/blender/editors/space_sequencer/sequencer_add.c) and of the curve
RNA accessors (source/blender/makesrna/intern/rna_curve.c).

The embedding is shallow: each C function relevant to a claim is translated
into a pure Lean function.  Calls into external libraries (SEQ_add_*,
SEQ_transform_*, BLI_findlink, WM_jobs_*) are modelled as oracle parameters
(their results are inputs of the Lean function) or, where a claim needs
their effect, as explicit state updates noted at the definition.
Machine integers are modelled as Int; where 32-bit overflow matters a
wrap32 reduction is applied explicitly.
-/

namespace Blender

/-- Operator return codes (subset used by these operators). -/
inductive OpResult where
  | FINISHED
  | CANCELLED
deriving DecidableEq, Repr

/-- User-visible reports issued through BKE_report / BKE_reportf.  Each
constructor stands for one format string of the source; the argument is the
value substituted for the percent-s placeholder. -/
inductive Report where
  | sceneNotFound
  | fileCouldNotBeLoaded (path : String)
deriving DecidableEq, Repr

/-- A timeline strip (struct Sequence), restricted to the fields the claims
touch: its type tag, channel (machine), handle frames as exposed by
SEQ_time_left/right_handle_frame_get, its SELECT flag bit, and an identifier
used to track it inside a seqbase list. -/
structure Strip where
  id : Nat := 0
  stype : Int := 0
  machine : Int := 0
  left_handle : Int := 0
  right_handle : Int := 0
  selected : Bool := false
deriving DecidableEq, Repr

/-- Numeric value of SEQ_TYPE_MOVIE from the external DNA header; only its
distinctness from other type tags matters here. -/
def SEQ_TYPE_MOVIE : Int := 3

/-- C int INT_MAX, the initial value of the proximity accumulator in
sequencer_generic_invoke_xy_guess_channel. -/
def INT_MAX : Int := 2147483647

/-- Minimum of the channel int property declared by
sequencer_generic_props__internal (RNA_def_int "channel" with hard min 1). -/
def channel_prop_hard_min : Int := 1

/-- The editing state the operators act on: the strip list ed->seqbasep and
the active strip (tracked by id).  Selection flags live on the strips. -/
structure Editing where
  seqbase : List Strip
  active_id : Option Nat
deriving DecidableEq, Repr

/-! ## Curve RNA accessors (rna_curve.c) -/

/-- The curve data-block, restricted to the offset field read and written by
the rna_Curve_offset accessors.  The C field is a float; the arithmetic the
accessors perform (adding and subtracting the constant 1) is modelled
exactly over the rationals. -/
structure Curve where
  offset : ℚ
deriving DecidableEq, Repr

/-- rna_Curve_offset_get: returns cu.offset - 1. -/
def rna_Curve_offset_get (cu : Curve) : ℚ :=
  cu.offset - 1

/-- rna_Curve_offset_set: stores 1 + value into cu.offset. -/
def rna_Curve_offset_set (cu : Curve) (value : ℚ) : Curve :=
  { cu with offset := 1 + value }

/-- The character-info struct, restricted to its material number field.
The field is declared in an external DNA header not part of this excerpt;
it is modelled as an unbounded Int and the round-trip theorem bounds the
value so that value + 1 stays representable in the narrowest plausible
field type (a 16-bit signed short). -/
structure CharInfo where
  mat_nr : Int
deriving DecidableEq, Repr

/-- rna_ChariInfo_material_index_get: mat_nr - 1 when mat_nr is nonzero,
otherwise 0 (the source comment: simply offset by one, do not expose -1). -/
def rna_ChariInfo_material_index_get (info : CharInfo) : Int :=
  if info.mat_nr ≠ 0 then info.mat_nr - 1 else 0

/-- rna_ChariInfo_material_index_set: stores value + 1. -/
def rna_ChariInfo_material_index_set (info : CharInfo) (value : Int) : CharInfo :=
  { info with mat_nr := value + 1 }

/-! ## seq_load_apply_generic_options -/

/-- Which overlap resolution ran for a newly added strip: none, an explicit
SEQ_transform_handle_overlap call, or a SEQ_transform_seqbase_shuffle call. -/
inductive OverlapResolution where
  | noResolution
  | handledOverlap
  | shuffled
deriving DecidableEq, Repr

/-- seq_load_apply_generic_options.  Inputs: the three boolean operator
properties it reads (replace_sel, overlap, overlap_shuffle_override), the
result of the external SEQ_transform_test_overlap call on this strip, the
editing state and the strip (None models a NULL Sequence pointer).
Modelled from the spec: SEQ_select_active_set (external) records the strip
as the active one; the strip-flag update seq->flag |= SELECT is the direct
field update of the strip inside the seqbase.  Returns the updated editing
state and which overlap resolution ran. -/
def seq_load_apply_generic_options (replace_sel overlap overlap_shuffle_override : Bool)
    (test_overlap : Bool) (ed : Editing) (seq : Option Strip) :
    Editing × OverlapResolution :=
  match seq with
  | none => (ed, OverlapResolution.noResolution)
  | some s =>
    let ed1 :=
      if replace_sel then
        { seqbase := ed.seqbase.map fun t =>
            if t.id = s.id then { t with selected := true } else t,
          active_id := some s.id }
      else ed
    if overlap = true ∨ ¬ test_overlap then
      (ed1, OverlapResolution.noResolution)
    else if overlap_shuffle_override then
      (ed1, OverlapResolution.handledOverlap)
    else
      (ed1, OverlapResolution.shuffled)

/-- Modelled from the spec: ED_sequencer_deselect_all (external editor code,
not under src) clears the selection flag of every strip. -/
def ED_sequencer_deselect_all (ed : Editing) : Editing :=
  { ed with seqbase := ed.seqbase.map fun s => { s with selected := false } }

/-! ## sequencer_add_scene_strip_exec -/

/-- sequencer_add_scene_strip_exec.  Inputs: the editing state, the result
of the BLI_findlink scene lookup (None models NULL), the three boolean
properties, the strip returned by the external SEQ_add_scene_strip call
(when the lookup succeeds the external call inserts it into the seqbase;
None models a NULL result) and the SEQ_transform_test_overlap oracle.
Returns the final editing state, the operator result and the reports. -/
def sequencer_add_scene_strip_exec (ed : Editing) (sce_seq : Option Nat)
    (replace_sel overlap overlap_shuffle_override : Bool)
    (new_strip : Option Strip) (test_overlap : Bool) :
    Editing × OpResult × List Report :=
  match sce_seq with
  | none => (ed, OpResult.CANCELLED, [Report.sceneNotFound])
  | some _ =>
    let ed1 := if replace_sel then ED_sequencer_deselect_all ed else ed
    let ed2 :=
      match new_strip with
      | some s => { ed1 with seqbase := ed1.seqbase ++ [s] }
      | none => ed1
    let r := seq_load_apply_generic_options replace_sel overlap overlap_shuffle_override
      test_overlap ed2 new_strip
    (r.1, OpResult.FINISHED, [])

/-! ## load_data_init_from_operator -/

/-- The operator properties load_data_init_from_operator reads, as found by
RNA_struct_find_property / RNA_*_get.  A None field models a property that
does not exist on the operator; string and multiview handling is external
path plumbing and is not part of any claim. -/
structure OpProps where
  frame_start : Int
  channel : Int
  fit_method : Option Int := none
  adjust_playback_rate : Option Bool := none
  frame_end : Option Int := none
  cache : Option Bool := none
  mono : Option Bool := none
  use_framerate : Option Bool := none
  set_view_transform : Option Bool := none
deriving DecidableEq, Repr

/-- The SeqLoadData descriptor, restricted to the numeric fields and flag
bits the operators set; the flags bitfield is modelled as one boolean per
SEQ_LOAD_* bit. -/
structure SeqLoadData where
  start_frame : Int := 0
  channel : Int := 0
  image_end_frame : Int := 0
  image_len : Int := 0
  effect_end_frame : Int := 0
  fit_method : Int := 0
  adjust_playback_rate : Bool := false
  flag_sound_cache : Bool := false
  flag_sound_mono : Bool := false
  flag_movie_sync_fps : Bool := false
  flag_set_view_transform : Bool := false
deriving DecidableEq, Repr

/-- load_data_init_from_operator: memset to zero, then fill from the
operator properties in source order. -/
def load_data_init_from_operator (op : OpProps) : SeqLoadData :=
  let ld : SeqLoadData := {}
  let ld := { ld with start_frame := op.frame_start, channel := op.channel }
  let ld := { ld with image_end_frame := ld.start_frame, image_len := 1 }
  let ld :=
    match op.fit_method with
    | some fm => { ld with fit_method := fm }
    | none => ld
  let ld :=
    match op.adjust_playback_rate with
    | some b => { ld with adjust_playback_rate := b }
    | none => ld
  let ld :=
    match op.frame_end with
    | some fe => { ld with image_end_frame := fe, effect_end_frame := fe }
    | none => ld
  let ld := if op.cache = some true then { ld with flag_sound_cache := true } else ld
  let ld := if op.mono = some true then { ld with flag_sound_mono := true } else ld
  let ld :=
    if op.use_framerate = some true then { ld with flag_movie_sync_fps := true } else ld
  let ld :=
    if op.set_view_transform = some true then
      { ld with flag_set_view_transform := true }
    else ld
  ld

/-! ## Movie and sound strip loading -/

/-- sequencer_add_movie_clamp_sound_strip_length: when both strips exist,
set the right and then the left handle frame of the sound strip to the
corresponding handle frame of the movie strip (the SEQ_time_*_handle_frame
set and get calls are external; modelled from the spec as reads and writes
of the handle fields).  Returns the updated sound strip. -/
def sequencer_add_movie_clamp_sound_strip_length (seq_movie seq_sound : Option Strip) :
    Option Strip :=
  match seq_movie, seq_sound with
  | some m, some s =>
    some { s with right_handle := m.right_handle, left_handle := m.left_handle }
  | _, _ => seq_sound

/-- One iteration of the RNA_BEGIN files loop of
sequencer_add_movie_multiple_strips, acting on the loop state
(current start_frame, collected movie strips, reports).  loadMovie and
loadSound are the external SEQ_add_movie_strip / SEQ_add_sound_strip calls,
keyed by the joined file path (their success does not depend on the running
start_frame).  Selection and overlap post-processing does not feed back
into loading and is modelled separately by seq_load_apply_generic_options. -/
structure MovieLoopState where
  start_frame : Int
  movie_strips : List Strip
  reports : List Report
deriving DecidableEq, Repr

def movie_multiple_strips_step (loadMovie loadSound : String → Option Strip)
    (sound : Bool) (st : MovieLoopState) (path : String) : MovieLoopState :=
  match loadMovie path with
  | none =>
    { st with reports := st.reports ++ [Report.fileCouldNotBeLoaded path] }
  | some seq_movie =>
    let seq_sound := if sound then loadSound path else none
    let seq_sound := sequencer_add_movie_clamp_sound_strip_length (some seq_movie) seq_sound
    let seq_movie :=
      if seq_sound.isSome then { seq_movie with machine := seq_movie.machine + 1 }
      else seq_movie
    { start_frame := st.start_frame + (seq_movie.right_handle - seq_movie.left_handle),
      movie_strips := st.movie_strips ++ [seq_movie],
      reports := st.reports }

/-- sequencer_add_movie_multiple_strips: fold the loop body over the files
collection, starting from the operator start frame with no strips collected
and no reports. -/
def sequencer_add_movie_multiple_strips (files : List String)
    (loadMovie loadSound : String → Option Strip) (sound : Bool)
    (start_frame : Int) : MovieLoopState :=
  files.foldl (movie_multiple_strips_step loadMovie loadSound sound)
    { start_frame := start_frame, movie_strips := [], reports := [] }

/-- Result of sequencer_add_movie_single_strip: the movie strip as finally
placed (after the possible channel shift), the sound strip after clamping,
the reports, and the boolean return value of the C function. -/
structure MovieSingleResult where
  seq_movie : Option Strip
  seq_sound : Option Strip
  reports : List Report
  ok : Bool
deriving DecidableEq, Repr

/-- sequencer_add_movie_single_strip: load the movie strip; on failure
report and return false.  Otherwise optionally load the sound strip, clamp
its length to the movie strip, and when the sound strip exists shift the
movie strip up one channel; the movie strip is appended to the collected
movie strips (modelled by ok = true). -/
def sequencer_add_movie_single_strip (path : String)
    (loadMovie loadSound : String → Option Strip) (sound : Bool) : MovieSingleResult :=
  match loadMovie path with
  | none =>
    { seq_movie := none, seq_sound := none,
      reports := [Report.fileCouldNotBeLoaded path], ok := false }
  | some seq_movie =>
    let seq_sound := if sound then loadSound path else none
    let seq_sound := sequencer_add_movie_clamp_sound_strip_length (some seq_movie) seq_sound
    let seq_movie :=
      if seq_sound.isSome then { seq_movie with machine := seq_movie.machine + 1 }
      else seq_movie
    { seq_movie := some seq_movie, seq_sound := seq_sound, reports := [], ok := true }

/-- sequencer_add_movie_strip_exec, restricted to strip collection and the
result code: run the multiple-strips loop when the files collection has
more than one entry, the single-strip path otherwise (single_path is the
path load_data_init_from_operator derived from the operator); return
CANCELLED when the collected movie-strip list is empty, FINISHED otherwise,
together with the reports. -/
def sequencer_add_movie_strip_exec (files : List String) (single_path : String)
    (loadMovie loadSound : String → Option Strip) (sound : Bool)
    (start_frame : Int) : OpResult × List Strip × List Report :=
  let tot_files := files.length
  let collected :=
    if tot_files > 1 then
      let st := sequencer_add_movie_multiple_strips files loadMovie loadSound sound start_frame
      (st.movie_strips, st.reports)
    else
      let r := sequencer_add_movie_single_strip single_path loadMovie loadSound sound
      (match r.seq_movie with | some m => [m] | none => [], r.reports)
  if collected.1.length = 0 then (OpResult.CANCELLED, collected.1, collected.2)
  else (OpResult.FINISHED, collected.1, collected.2)

/-! ## seq_build_proxy -/

/-- Numeric value of USER_SEQ_PROXY_SETUP_AUTOMATIC from the external
userdef header; only its distinctness from the manual setting matters. -/
def USER_SEQ_PROXY_SETUP_AUTOMATIC : Int := 1

/-- Observable effects of seq_build_proxy: the strips for which
SEQ_proxy_rebuild_context enqueued a proxy job into the queue, and whether
WM_jobs_start was called. -/
structure ProxyBuildEffects where
  enqueued : List Strip
  job_started : Bool
deriving DecidableEq, Repr

/-- seq_build_proxy: return immediately when the user preference
sequencer_proxy_setup is not AUTOMATIC; otherwise enqueue a rebuild context
for every movie strip and, when WM_jobs_is_running reports false for the
proxy job, start it. -/
def seq_build_proxy (sequencer_proxy_setup : Int) (movie_strips : List Strip)
    (jobs_is_running : Bool) : ProxyBuildEffects :=
  if sequencer_proxy_setup ≠ USER_SEQ_PROXY_SETUP_AUTOMATIC then
    { enqueued := [], job_started := false }
  else
    { enqueued := movie_strips, job_started := !jobs_is_running }

/-! ## sequencer_generic_invoke_xy_guess_channel -/

/-- The strip filter of the guess-channel scan: the strip type matches the
requested type (-1 matches any) and the strip ends at or before the current
frame. -/
def guessMatches (timeline_frame stype : Int) (s : Strip) : Prop :=
  (stype = -1 ∨ stype = s.stype) ∧ s.right_handle ≤ timeline_frame

instance (timeline_frame stype : Int) (s : Strip) :
    Decidable (guessMatches timeline_frame stype s) := by
  unfold guessMatches; infer_instance

/-- Accumulator of the guess-channel scan: the best strip found so far and
its proximity (initially INT_MAX). -/
structure GuessAcc where
  tgt : Option Strip
  proximity : Int
deriving Repr

/-- One iteration of the guess-channel scan over the seqbase. -/
def guess_channel_step (timeline_frame stype : Int) (acc : GuessAcc) (seq : Strip) :
    GuessAcc :=
  if guessMatches timeline_frame stype seq ∧
      timeline_frame - seq.right_handle < acc.proximity then
    { tgt := some seq, proximity := timeline_frame - seq.right_handle }
  else acc

/-- sequencer_generic_invoke_xy_guess_channel: scan the seqbase for the
matching strip whose right end is nearest at or before the current frame;
return 1 when none is found, otherwise that strip channel, minus one when
the requested type is movie. -/
def sequencer_generic_invoke_xy_guess_channel (seqbase : List Strip)
    (timeline_frame stype : Int) : Int :=
  let acc := seqbase.foldl (guess_channel_step timeline_frame stype)
    { tgt := none, proximity := INT_MAX }
  match acc.tgt with
  | some tgt => if stype = SEQ_TYPE_MOVIE then tgt.machine - 1 else tgt.machine
  | none => 1

/-! ## Theorems -/

/-- Claim C4, counterexample: the code stores the exposed value PLUS one,
not minus one, and the getter returns the stored field MINUS one, not plus
one.  At exposed value 2 the stored field becomes 3, not 2 - 1; at stored
field 3 the getter returns 2, not 3 + 1. -/
theorem rna_Curve_offset_claim_counterexample :
    (rna_Curve_offset_set ⟨0⟩ 2).offset = 3 ∧ ((3 : ℚ) ≠ 2 - 1) ∧
    rna_Curve_offset_get ⟨3⟩ = 2 ∧ ((2 : ℚ) ≠ 3 + 1) := by
  refine ⟨?_, by norm_num, ?_, by norm_num⟩ <;>
    simp [rna_Curve_offset_set, rna_Curve_offset_get] <;> norm_num

/-- Claim C4 (amended): the offset property is derived with the opposite
sign: the setter stores the exposed value plus 1 into cu.offset, the getter
returns cu.offset minus 1, and the two form a round trip. -/
theorem rna_Curve_offset_amended_spec (cu : Curve) (v : ℚ) :
    (rna_Curve_offset_set cu v).offset = v + 1 ∧
    rna_Curve_offset_get cu = cu.offset - 1 ∧
    rna_Curve_offset_get (rna_Curve_offset_set cu v) = v :=
  ⟨by simp [rna_Curve_offset_set]; try ring, rfl,
    by simp [rna_Curve_offset_get, rna_Curve_offset_set]; try ring⟩

/-- Claim C8: for every representable non-negative value v, setting the
material index to v and reading it back returns v, and the getter result is
never negative on such a round trip (the setter stores v + 1, so the stored
field is nonzero and the getter subtracts the 1 back). -/
theorem rna_ChariInfo_material_index_round_trip (info : CharInfo) (v : Int)
    (h0 : 0 ≤ v) (h1 : v ≤ 32766) :
    rna_ChariInfo_material_index_get (rna_ChariInfo_material_index_set info v) = v ∧
    0 ≤ rna_ChariInfo_material_index_get (rna_ChariInfo_material_index_set info v) := by
  simp only [rna_ChariInfo_material_index_get, rna_ChariInfo_material_index_set, ne_eq]
  split_ifs with hz <;> omega

/-- Claim C8, witness at v = 5. -/
theorem rna_ChariInfo_material_index_round_trip_witness :
    rna_ChariInfo_material_index_get (rna_ChariInfo_material_index_set ⟨0⟩ 5) = 5 :=
  (rna_ChariInfo_material_index_round_trip ⟨0⟩ 5 (by decide) (by decide)).1

/-- Claim C5: the load descriptor is built from the operator properties as
stated: start_frame and channel copy the int properties, image.len is 1,
image.end_frame defaults to the start frame and, together with
effect.end_frame, is overwritten by the frame_end property when it exists;
each SEQ_LOAD flag bit is set exactly when the corresponding boolean
property exists and is true. -/
theorem load_data_init_from_operator_spec (op : OpProps) :
    (load_data_init_from_operator op).start_frame = op.frame_start ∧
    (load_data_init_from_operator op).channel = op.channel ∧
    (load_data_init_from_operator op).image_len = 1 ∧
    (op.frame_end = none →
      (load_data_init_from_operator op).image_end_frame = op.frame_start) ∧
    (∀ fe, op.frame_end = some fe →
      (load_data_init_from_operator op).image_end_frame = fe ∧
      (load_data_init_from_operator op).effect_end_frame = fe) ∧
    ((load_data_init_from_operator op).flag_sound_cache = true ↔ op.cache = some true) ∧
    ((load_data_init_from_operator op).flag_sound_mono = true ↔ op.mono = some true) ∧
    ((load_data_init_from_operator op).flag_movie_sync_fps = true ↔
      op.use_framerate = some true) ∧
    ((load_data_init_from_operator op).flag_set_view_transform = true ↔
      op.set_view_transform = some true) := by
  obtain ⟨fs, ch, fm, ar, fe, ca, mo, uf, sv⟩ := op
  rcases fm with _ | fm <;> rcases ar with _ | ar <;> rcases fe with _ | fe <;>
    rcases ca with _ | ca <;> rcases mo with _ | mo <;> rcases uf with _ | uf <;>
    rcases sv with _ | sv <;>
    (try cases ca) <;> (try cases mo) <;> (try cases uf) <;> (try cases sv) <;>
    simp [load_data_init_from_operator]

/-- Claim C5, witness at a concrete operator-property assignment with
frame_end = 7, cache = true, mono = false and no use_framerate property. -/
theorem load_data_init_from_operator_spec_witness :
    (load_data_init_from_operator
        { frame_start := 10, channel := 2, frame_end := some 7,
          cache := some true, mono := some false }).image_end_frame = 7 ∧
    (load_data_init_from_operator
        { frame_start := 10, channel := 2, frame_end := some 7,
          cache := some true, mono := some false }).flag_sound_cache = true := by
  have h := load_data_init_from_operator_spec
    { frame_start := 10, channel := 2, frame_end := some 7,
      cache := some true, mono := some false }
  exact ⟨(h.2.2.2.2.1 7 rfl).1, h.2.2.2.2.2.1.mpr rfl⟩

/-- Claim C6: seq_build_proxy starts the proxy job only when
WM_jobs_is_running reported false, and when the user preference is not
AUTOMATIC it neither enqueues a rebuild context nor starts the job. -/
theorem seq_build_proxy_spec (setup : Int) (strips : List Strip) (running : Bool) :
    ((seq_build_proxy setup strips running).job_started = true → running = false) ∧
    (setup ≠ USER_SEQ_PROXY_SETUP_AUTOMATIC →
      (seq_build_proxy setup strips running).enqueued = [] ∧
      (seq_build_proxy setup strips running).job_started = false) := by
  unfold seq_build_proxy
  split_ifs with h <;> simp_all

/-- Claim C6, witness: with a non-AUTOMATIC preference nothing is enqueued
and nothing is started. -/
theorem seq_build_proxy_spec_witness :
    (seq_build_proxy 0 [] true).enqueued = [] ∧
    (seq_build_proxy 0 [] true).job_started = false :=
  (seq_build_proxy_spec 0 [] true).2 (by decide)

/-- Claim C1: for a non-NULL strip, when the overlap property is true or
the strip does not overlap, no resolution runs; otherwise exactly one of
the two resolutions runs, SEQ_transform_handle_overlap when
overlap_shuffle_override is true and SEQ_transform_seqbase_shuffle when it
is false. -/
theorem seq_load_apply_generic_options_overlap_spec
    (replace_sel overlap osq test_overlap : Bool) (ed : Editing) (s : Strip) :
    ((overlap = true ∨ test_overlap = false) →
      (seq_load_apply_generic_options replace_sel overlap osq test_overlap ed (some s)).2 =
        OverlapResolution.noResolution) ∧
    (overlap = false → test_overlap = true →
      (osq = true →
        (seq_load_apply_generic_options replace_sel overlap osq test_overlap ed (some s)).2 =
          OverlapResolution.handledOverlap) ∧
      (osq = false →
        (seq_load_apply_generic_options replace_sel overlap osq test_overlap ed (some s)).2 =
          OverlapResolution.shuffled)) := by
  unfold seq_load_apply_generic_options
  cases overlap <;> cases test_overlap <;> cases osq <;> simp

/-- Claim C1, witness: overlap false, overlapping strip, override true
runs the explicit overlap handling. -/
theorem seq_load_apply_generic_options_overlap_spec_witness :
    (seq_load_apply_generic_options false false true true ⟨[], none⟩ (some {})).2 =
      OverlapResolution.handledOverlap :=
  ((seq_load_apply_generic_options_overlap_spec false false true true
    ⟨[], none⟩ {}).2 rfl rfl).1 rfl

/-- Claim C2: the add-scene-strip exec returns CANCELLED with the report
Scene not found exactly when the scene lookup returned NULL, and FINISHED
with no report in every other case. -/
theorem sequencer_add_scene_strip_exec_result_spec (ed : Editing) (sce : Option Nat)
    (rs ov osq : Bool) (ns : Option Strip) (tov : Bool) :
    (((sequencer_add_scene_strip_exec ed sce rs ov osq ns tov).2.1 = OpResult.CANCELLED ∧
      (sequencer_add_scene_strip_exec ed sce rs ov osq ns tov).2.2 =
        [Report.sceneNotFound]) ↔ sce = none) ∧
    (sce ≠ none →
      (sequencer_add_scene_strip_exec ed sce rs ov osq ns tov).2.1 = OpResult.FINISHED ∧
      (sequencer_add_scene_strip_exec ed sce rs ov osq ns tov).2.2 = []) := by
  cases sce <;> simp [sequencer_add_scene_strip_exec]

/-- Claim C2, witness: with a found scene the exec finishes with no
report. -/
theorem sequencer_add_scene_strip_exec_result_spec_witness :
    (sequencer_add_scene_strip_exec ⟨[], none⟩ (some 0) true false false none true).2.1 =
      OpResult.FINISHED :=
  ((sequencer_add_scene_strip_exec_result_spec ⟨[], none⟩ (some 0) true false false
    none true).2 (by decide)).1

/-- Helper: a failing file leaves the loop state unchanged apart from
appending one report. -/
theorem movie_multiple_strips_step_none (loadMovie loadSound : String → Option Strip)
    (sound : Bool) (st : MovieLoopState) (path : String)
    (hf : loadMovie path = none) :
    movie_multiple_strips_step loadMovie loadSound sound st path =
      { st with reports := st.reports ++ [Report.fileCouldNotBeLoaded path] } := by
  simp [movie_multiple_strips_step, hf]

/-- Helper: a succeeding file appends exactly one movie strip and no
report. -/
theorem movie_multiple_strips_step_some (loadMovie loadSound : String → Option Strip)
    (sound : Bool) (st : MovieLoopState) (path : String) (m : Strip)
    (hf : loadMovie path = some m) :
    (movie_multiple_strips_step loadMovie loadSound sound st path).reports = st.reports ∧
    (movie_multiple_strips_step loadMovie loadSound sound st path).movie_strips.length =
      st.movie_strips.length + 1 := by
  simp [movie_multiple_strips_step, hf]

/-- Helper: over the whole files loop, the reports are exactly one
load-failure report per failing file in order, and the number of collected
movie strips is the number of succeeding files. -/
theorem movie_multiple_strips_fold_spec (loadMovie loadSound : String → Option Strip)
    (sound : Bool) (files : List String) (st : MovieLoopState) :
    (files.foldl (movie_multiple_strips_step loadMovie loadSound sound) st).reports =
      st.reports ++
        (files.filter fun f => (loadMovie f).isNone).map Report.fileCouldNotBeLoaded ∧
    (files.foldl (movie_multiple_strips_step loadMovie loadSound sound) st).movie_strips.length =
      st.movie_strips.length + (files.filter fun f => (loadMovie f).isSome).length := by
  induction files generalizing st with
  | nil => simp
  | cons f fs ih =>
    rw [List.foldl_cons]
    cases hf : loadMovie f with
    | none =>
      rw [movie_multiple_strips_step_none loadMovie loadSound sound st f hf]
      obtain ⟨h1, h2⟩ := ih { st with reports := st.reports ++ [Report.fileCouldNotBeLoaded f] }
      refine ⟨?_, ?_⟩
      · rw [h1]; simp [List.filter_cons, hf]
      · rw [h2]; simp [List.filter_cons, hf]
    | some m =>
      obtain ⟨hrep, hlen⟩ :=
        movie_multiple_strips_step_some loadMovie loadSound sound st f m hf
      obtain ⟨h1, h2⟩ := ih (movie_multiple_strips_step loadMovie loadSound sound st f)
      refine ⟨?_, ?_⟩
      · rw [h1, hrep]; simp [List.filter_cons, hf]
      · rw [h2, hlen]; simp [List.filter_cons, hf]; omega

/-- Claim C3: for a multi-file movie import, every failing file produces
one could-not-be-loaded report while the loop continues over the remaining
files (the reports list the failing files, the collected strips count the
succeeding files), and the exec returns CANCELLED exactly when no movie
strip at all was added and FINISHED exactly when at least one was. -/
theorem sequencer_add_movie_strip_exec_multi_spec (files : List String)
    (single_path : String) (loadMovie loadSound : String → Option Strip)
    (sound : Bool) (start_frame : Int) (h : 1 < files.length) :
    (sequencer_add_movie_strip_exec files single_path loadMovie loadSound sound
        start_frame).2.2 =
      (files.filter fun f => (loadMovie f).isNone).map Report.fileCouldNotBeLoaded ∧
    (sequencer_add_movie_strip_exec files single_path loadMovie loadSound sound
        start_frame).2.1.length =
      (files.filter fun f => (loadMovie f).isSome).length ∧
    ((sequencer_add_movie_strip_exec files single_path loadMovie loadSound sound
        start_frame).1 = OpResult.CANCELLED ↔ ∀ f ∈ files, loadMovie f = none) ∧
    ((sequencer_add_movie_strip_exec files single_path loadMovie loadSound sound
        start_frame).1 = OpResult.FINISHED ↔
      ¬ ∀ f ∈ files, loadMovie f = none) := by
  have hms : (sequencer_add_movie_multiple_strips files loadMovie loadSound sound
        start_frame).reports =
        (files.filter fun f => (loadMovie f).isNone).map Report.fileCouldNotBeLoaded ∧
      (sequencer_add_movie_multiple_strips files loadMovie loadSound sound
        start_frame).movie_strips.length =
        (files.filter fun f => (loadMovie f).isSome).length := by
    have hfold := movie_multiple_strips_fold_spec loadMovie loadSound sound files
      { start_frame := start_frame, movie_strips := [], reports := [] }
    unfold sequencer_add_movie_multiple_strips
    exact ⟨by rw [hfold.1]; simp, by rw [hfold.2]; simp⟩
  have hzero : ((sequencer_add_movie_multiple_strips files loadMovie loadSound sound
      start_frame).movie_strips.length = 0) ↔ ∀ f ∈ files, loadMovie f = none := by
    rw [hms.2]
    simp [List.length_eq_zero, List.filter_eq_nil_iff, Option.not_isSome_iff_eq_none]
  simp only [sequencer_add_movie_strip_exec]
  rw [if_pos h]
  by_cases hz : (sequencer_add_movie_multiple_strips files loadMovie loadSound sound
      start_frame).movie_strips.length = 0
  · rw [if_pos hz]
    refine ⟨hms.1, hms.2, iff_of_true rfl (hzero.mp hz), ?_⟩
    exact iff_of_false (by simp) (not_not_intro (hzero.mp hz))
  · rw [if_neg hz]
    refine ⟨hms.1, hms.2, ?_, ?_⟩
    · exact iff_of_false (by simp) fun hall => hz (hzero.mpr hall)
    · exact iff_of_true rfl fun hall => hz (hzero.mpr hall)

/-- Claim C3, witness: two files where the first fails to load and the
second loads: one failure report and a FINISHED result. -/
theorem sequencer_add_movie_strip_exec_multi_spec_witness :
    (sequencer_add_movie_strip_exec ["a", "b"] "a"
        (fun f => if f = "a" then none else some {}) (fun _ => none) false 0).2.2 =
      [Report.fileCouldNotBeLoaded "a"] ∧
    (sequencer_add_movie_strip_exec ["a", "b"] "a"
        (fun f => if f = "a" then none else some {}) (fun _ => none) false 0).1 =
      OpResult.FINISHED := by
  have h := sequencer_add_movie_strip_exec_multi_spec ["a", "b"] "a"
    (fun f => if f = "a" then none else some {}) (fun _ => none) false 0 (by decide)
  exact ⟨h.1.trans (by decide), h.2.2.2.mpr (by decide)⟩

/-- Helper: strips whose id differs from s.id are untouched by the
select-update map of seq_load_apply_generic_options, so a freshly
deselected seqbase is left as it is. -/
theorem map_select_update_of_fresh (l : List Strip) (s : Strip)
    (h : ∀ t ∈ l, t.id ≠ s.id) :
    (l.map fun t => { t with selected := false }).map
        (fun t => if t.id = s.id then { t with selected := true } else t) =
      l.map fun t => { t with selected := false } := by
  induction l with
  | nil => rfl
  | cons a l ih =>
    have ha : a.id ≠ s.id := h a (List.mem_cons_self a l)
    have hl : ∀ t ∈ l, t.id ≠ s.id := fun t ht => h t (List.mem_cons_of_mem a ht)
    simp only [List.map_cons]
    rw [ih hl]
    simp [ha]

/-- Claim C7: in the add-scene-strip exec with a found scene and a freshly
created strip, replace_sel true deselects every previously existing strip,
selects the new strip and makes it active; replace_sel false leaves the
previous strips and the active strip untouched by the selection
post-processing. -/
theorem sequencer_add_scene_strip_exec_selection_spec (ed : Editing) (i : Nat)
    (ov osq tov : Bool) (s : Strip)
    (hfresh : ∀ t ∈ ed.seqbase, t.id ≠ s.id) :
    ((sequencer_add_scene_strip_exec ed (some i) true ov osq (some s) tov).1.seqbase =
        (ed.seqbase.map fun t => { t with selected := false }) ++
          [{ s with selected := true }] ∧
      (sequencer_add_scene_strip_exec ed (some i) true ov osq (some s) tov).1.active_id =
        some s.id) ∧
    ((sequencer_add_scene_strip_exec ed (some i) false ov osq (some s) tov).1.seqbase =
        ed.seqbase ++ [s] ∧
      (sequencer_add_scene_strip_exec ed (some i) false ov osq (some s) tov).1.active_id =
        ed.active_id) := by
  simp only [sequencer_add_scene_strip_exec, seq_load_apply_generic_options,
    ED_sequencer_deselect_all]
  cases ov <;> cases osq <;> cases tov <;>
    simp [map_select_update_of_fresh ed.seqbase s hfresh]

/-- Claim C7, witness: one previously selected strip of id 1 is deselected,
the fresh strip of id 2 ends selected and active. -/
theorem sequencer_add_scene_strip_exec_selection_spec_witness :
    (sequencer_add_scene_strip_exec
        ⟨[{ id := 1, selected := true }], none⟩ (some 0) true false false
        (some { id := 2 }) false).1.seqbase =
      [{ id := 1, selected := false }, { id := 2, selected := true }] ∧
    (sequencer_add_scene_strip_exec
        ⟨[{ id := 1, selected := true }], none⟩ (some 0) true false false
        (some { id := 2 }) false).1.active_id = some 2 := by
  have h := sequencer_add_scene_strip_exec_selection_spec
    ⟨[{ id := 1, selected := true }], none⟩ 0 false false false { id := 2 } (by decide)
  exact ⟨h.1.1.trans (by decide), h.1.2⟩

/-- Claim C10: when a movie strip loads and the sound property is true, a
succeeding sound strip gets its left and right handle frames clamped to
the movie strip handles and the movie strip channel is shifted up by
exactly one, both in the single-strip path and in the files-loop step; a
failing sound load leaves the movie strip channel unchanged. -/
theorem sequencer_add_movie_single_strip_sound_spec (path : String)
    (loadMovie loadSound : String → Option Strip) (m s0 : Strip)
    (st : MovieLoopState) (hm : loadMovie path = some m) :
    (loadSound path = some s0 →
      (sequencer_add_movie_single_strip path loadMovie loadSound true).seq_movie =
        some { m with machine := m.machine + 1 } ∧
      (sequencer_add_movie_single_strip path loadMovie loadSound true).seq_sound =
        some { s0 with left_handle := m.left_handle, right_handle := m.right_handle } ∧
      (movie_multiple_strips_step loadMovie loadSound true st path).movie_strips =
        st.movie_strips ++ [{ m with machine := m.machine + 1 }]) ∧
    (loadSound path = none →
      (sequencer_add_movie_single_strip path loadMovie loadSound true).seq_movie =
        some m ∧
      (sequencer_add_movie_single_strip path loadMovie loadSound true).seq_sound =
        none ∧
      (movie_multiple_strips_step loadMovie loadSound true st path).movie_strips =
        st.movie_strips ++ [m]) := by
  constructor <;> intro hs <;>
    refine ⟨?_, ?_, ?_⟩ <;>
    simp [sequencer_add_movie_single_strip, movie_multiple_strips_step,
      sequencer_add_movie_clamp_sound_strip_length, hm, hs]

/-- Claim C10, witness: a movie strip on channel 4 with handles 10 and 20
and a sound strip with different handles: the movie ends on channel 5 and
the sound handles become 10 and 20. -/
theorem sequencer_add_movie_single_strip_sound_spec_witness :
    (sequencer_add_movie_single_strip "a"
        (fun _ => some { machine := 4, left_handle := 10, right_handle := 20 })
        (fun _ => some { machine := 4, left_handle := 0, right_handle := 7 })
        true).seq_movie =
      some { machine := 5, left_handle := 10, right_handle := 20 } ∧
    (sequencer_add_movie_single_strip "a"
        (fun _ => some { machine := 4, left_handle := 10, right_handle := 20 })
        (fun _ => some { machine := 4, left_handle := 0, right_handle := 7 })
        true).seq_sound =
      some { machine := 4, left_handle := 10, right_handle := 20 } := by
  have h := (sequencer_add_movie_single_strip_sound_spec "a"
    (fun _ => some { machine := 4, left_handle := 10, right_handle := 20 })
    (fun _ => some { machine := 4, left_handle := 0, right_handle := 7 })
    { machine := 4, left_handle := 10, right_handle := 20 }
    { machine := 4, left_handle := 0, right_handle := 7 }
    ⟨0, [], []⟩ rfl).1 rfl
  exact ⟨h.1, h.2.1⟩

/-- Helper: the guess-channel scan either leaves the accumulator unchanged
(and then every matching strip of the scanned list sits at least as far
from the frame as the accumulated proximity) or lands on a matching strip
of the list whose proximity is strictly better than the initial one and
minimal over every matching strip of the list. -/
theorem guess_channel_fold_cases (tf stype : Int) (l : List Strip) (acc : GuessAcc) :
    (l.foldl (guess_channel_step tf stype) acc = acc ∧
      ∀ s ∈ l, guessMatches tf stype s → acc.proximity ≤ tf - s.right_handle) ∨
    (∃ t ∈ l, guessMatches tf stype t ∧
      (l.foldl (guess_channel_step tf stype) acc).tgt = some t ∧
      (l.foldl (guess_channel_step tf stype) acc).proximity = tf - t.right_handle ∧
      tf - t.right_handle < acc.proximity ∧
      ∀ s ∈ l, guessMatches tf stype s →
        tf - t.right_handle ≤ tf - s.right_handle) := by
  induction l generalizing acc with
  | nil => exact Or.inl ⟨rfl, by simp⟩
  | cons a l ih =>
    by_cases hcond : guessMatches tf stype a ∧ tf - a.right_handle < acc.proximity
    · have hstep : guess_channel_step tf stype acc a =
          { tgt := some a, proximity := tf - a.right_handle } := by
        unfold guess_channel_step; rw [if_pos hcond]
      rw [List.foldl_cons, hstep]
      rcases ih { tgt := some a, proximity := tf - a.right_handle } with
        ⟨heq, hmin⟩ | ⟨t, htl, hmt, htgt, hprox, hlt, hmin⟩
      · refine Or.inr ⟨a, List.mem_cons_self a l, hcond.1, ?_, ?_, hcond.2, ?_⟩
        · rw [heq]
        · rw [heq]
        · intro s hs hms
          rcases List.mem_cons.mp hs with rfl | hs
          · exact le_refl _
          · exact hmin s hs hms
      · refine Or.inr ⟨t, List.mem_cons_of_mem a htl, hmt, htgt, hprox,
          lt_trans hlt hcond.2, ?_⟩
        intro s hs hms
        rcases List.mem_cons.mp hs with rfl | hs
        · exact le_of_lt hlt
        · exact hmin s hs hms
    · have hstep : guess_channel_step tf stype acc a = acc := by
        unfold guess_channel_step; rw [if_neg hcond]
      rw [List.foldl_cons, hstep]
      rcases ih acc with ⟨heq, hmin⟩ | ⟨t, htl, hmt, htgt, hprox, hlt, hmin⟩
      · refine Or.inl ⟨heq, ?_⟩
        intro s hs hms
        rcases List.mem_cons.mp hs with rfl | hs
        · rcases not_and_or.mp hcond with hna | hnp
          · exact absurd hms hna
          · exact le_of_not_lt hnp
        · exact hmin s hs hms
      · refine Or.inr ⟨t, List.mem_cons_of_mem a htl, hmt, htgt, hprox, hlt, ?_⟩
        intro s hs hms
        rcases List.mem_cons.mp hs with rfl | hs
        · rcases not_and_or.mp hcond with hna | hnp
          · exact absurd hms hna
          · exact le_trans (le_of_lt hlt) (le_of_not_lt hnp)
        · exact hmin s hs hms

/-- Helper: unfolding equation of the guess-channel function with the let
binding resolved. -/
theorem sequencer_generic_invoke_xy_guess_channel_eq (seqbase : List Strip)
    (tf stype : Int) :
    sequencer_generic_invoke_xy_guess_channel seqbase tf stype =
      match (seqbase.foldl (guess_channel_step tf stype)
          { tgt := none, proximity := INT_MAX }).tgt with
      | some tgt => if stype = SEQ_TYPE_MOVIE then tgt.machine - 1 else tgt.machine
      | none => 1 := rfl

/-- Claim C9: under in-range frame distances, the channel guess returns 1
when no strip of the requested type ends at or before the current frame;
otherwise it returns the channel of a matching strip whose right end is
closest to the current frame, minus one when the requested type is movie;
and for a movie it can return 0, one below the declared hard minimum 1 of
the channel property, as the closed instance in the last conjunct shows. -/
theorem sequencer_generic_invoke_xy_guess_channel_spec (seqbase : List Strip)
    (tf stype : Int) (hb : ∀ s ∈ seqbase, tf - s.right_handle < INT_MAX) :
    ((∀ s ∈ seqbase, ¬ guessMatches tf stype s) →
      sequencer_generic_invoke_xy_guess_channel seqbase tf stype = 1) ∧
    ((∃ s ∈ seqbase, guessMatches tf stype s) →
      ∃ t ∈ seqbase, guessMatches tf stype t ∧
        (∀ s ∈ seqbase, guessMatches tf stype s →
          tf - t.right_handle ≤ tf - s.right_handle) ∧
        sequencer_generic_invoke_xy_guess_channel seqbase tf stype =
          (if stype = SEQ_TYPE_MOVIE then t.machine - 1 else t.machine)) ∧
    (sequencer_generic_invoke_xy_guess_channel
        [{ stype := SEQ_TYPE_MOVIE, machine := channel_prop_hard_min, right_handle := 0 }]
        0 SEQ_TYPE_MOVIE = channel_prop_hard_min - 1 ∧
      channel_prop_hard_min - 1 < channel_prop_hard_min) := by
  refine ⟨?_, ?_, by decide⟩
  · intro hnone
    rcases guess_channel_fold_cases tf stype seqbase { tgt := none, proximity := INT_MAX }
      with ⟨heq, _⟩ | ⟨t, htl, hmt, _⟩
    · rw [sequencer_generic_invoke_xy_guess_channel_eq, heq]
    · exact absurd hmt (hnone t htl)
  · rintro ⟨s0, hs0, hm0⟩
    rcases guess_channel_fold_cases tf stype seqbase { tgt := none, proximity := INT_MAX }
      with ⟨_, hmin⟩ | ⟨t, htl, hmt, htgt, _, _, hmin⟩
    · exact absurd (hmin s0 hs0 hm0) (not_le.mpr (hb s0 hs0))
    · refine ⟨t, htl, hmt, hmin, ?_⟩
      rw [sequencer_generic_invoke_xy_guess_channel_eq, htgt]

/-- Claim C9, witness: a single movie strip on channel 2 ending at frame 5
with current frame 10 makes the guess return 1. -/
theorem sequencer_generic_invoke_xy_guess_channel_spec_witness :
    sequencer_generic_invoke_xy_guess_channel
      [{ stype := 3, machine := 2, right_handle := 5 }] 10 3 = 1 := by
  have h := (sequencer_generic_invoke_xy_guess_channel_spec
    [{ stype := 3, machine := 2, right_handle := 5 }] 10 3 (by decide)).2.1
    ⟨{ stype := 3, machine := 2, right_handle := 5 }, by simp, by decide⟩
  obtain ⟨t, ht, -, -, heq⟩ := h
  rw [List.mem_singleton] at ht
  subst ht
  simpa using heq

end Blender
